import Mathlib

/-!
Verification of the 2D rigid-circle physics stepper in
`physics-engine/app/components/PhysicsEngine.tsx`.

The physics core is shallowly embedded over exact rationals `ℚ`
(the source uses JavaScript doubles; exact arithmetic idealises the
numerics).  The one non-field operation of the source, `Math.sqrt` on
line 89, is treated as an oracle: functions that need the
centre-to-centre distance take it as an explicit argument, and theorems
constrain it by its defining property `dist ^ 2 = dx ^ 2 + dy ^ 2`,
`0 ≤ dist`.  A second, parallel embedding over a type `JSNum` of
IEEE-style special values (NaN, ±∞) is used to settle the zero-distance
NaN claim, which is invisible over plain `ℚ`.
-/

namespace PhysicsEngine

/-- `Vector2D` of PhysicsEngine.tsx lines 5-8. -/
structure Vector2D where
  x : ℚ
  y : ℚ
deriving DecidableEq, Repr

/-- `Body` of PhysicsEngine.tsx lines 10-18. -/
structure Body where
  id : String
  position : Vector2D
  velocity : Vector2D
  acceleration : Vector2D
  mass : ℚ
  radius : ℚ
  color : String
deriving DecidableEq, Repr

/-- `Omit<Body, 'id'>`: the argument of `addBody` (line 40), a body
specification without an id. -/
structure BodySpec where
  position : Vector2D
  velocity : Vector2D
  acceleration : Vector2D
  mass : ℚ
  radius : ℚ
  color : String
deriving DecidableEq, Repr

/-- The body record built on line 41: the spread of the spec plus the
id freshly generated by `Math.random().toString(36).substr(2, 9)`.
The generator is random, so its output is an explicit argument here. -/
def BodySpec.withId (spec : BodySpec) (freshId : String) : Body :=
  { id := freshId, position := spec.position, velocity := spec.velocity,
    acceleration := spec.acceleration, mass := spec.mass,
    radius := spec.radius, color := spec.color }

/-- `addBody` (lines 40-42): push the new body onto the store. -/
def addBody (bodies : List Body) (spec : BodySpec) (freshId : String) : List Body :=
  bodies ++ [spec.withId freshId]

/-- `clearBodies` (lines 44-46): empty the store. -/
def clearBodies (_bodies : List Body) : List Body := []

/-- The fixed friction coefficient of line 63. -/
def frictionCoefficient : ℚ := 9 / 10

/-- Lines 49-81 of `updatePhysics`: gravity, velocity update, the
friction approximation, then the position update from the already
updated velocity.  `width`/`height` are the canvas dimensions
(`canvasRef.current` is modelled as present). -/
def integrateBody (gravity : Vector2D) (frictionEnabled : Bool)
    (width height dt : ℚ) (body : Body) : Body :=
  let forceX := body.mass * gravity.x
  let forceY := body.mass * gravity.y
  let accelerationX := forceX / body.mass
  let accelerationY := forceY / body.mass
  let v1x := body.velocity.x + accelerationX * dt
  let v1y := body.velocity.y + accelerationY * dt
  let v2x := if frictionEnabled ∧ body.position.y + body.radius ≥ height - 1
    then v1x * frictionCoefficient else v1x
  let v2y := if frictionEnabled ∧
      (body.position.x + body.radius ≥ width - 1 ∨ body.position.x - body.radius ≤ 1)
    then v1y * frictionCoefficient else v1y
  let newPositionX := body.position.x + v2x * dt
  let newPositionY := body.position.y + v2y * dt
  { body with velocity := ⟨v2x, v2y⟩, position := ⟨newPositionX, newPositionY⟩ }

/-- The `dotProduct` of lines 96-102: relative velocity of the pair
projected on the collision normal `(posB - posA) / distance`. -/
def collisionDot (bodyA bodyB : Body) (distance : ℚ) : ℚ :=
  let normalX := (bodyB.position.x - bodyA.position.x) / distance
  let normalY := (bodyB.position.y - bodyA.position.y) / distance
  let relativeVelocityX := bodyB.velocity.x - bodyA.velocity.x
  let relativeVelocityY := bodyB.velocity.y - bodyA.velocity.y
  relativeVelocityX * normalX + relativeVelocityY * normalY

/-- Lines 94-126: the per-pair collision test and resolution.
`distance` is the value `Math.sqrt` returned on lines 89-92. -/
def resolvePair (elasticity : ℚ) (bodyA bodyB : Body) (distance : ℚ) :
    Body × Body :=
  if distance < bodyA.radius + bodyB.radius then
    let normalX := (bodyB.position.x - bodyA.position.x) / distance
    let normalY := (bodyB.position.y - bodyA.position.y) / distance
    let dotProduct := collisionDot bodyA bodyB distance
    if dotProduct < 0 then
      let impulse := (-(1 + elasticity) * dotProduct) / (1 / bodyA.mass + 1 / bodyB.mass)
      let impulseX := impulse * normalX
      let impulseY := impulse * normalY
      let overlap := bodyA.radius + bodyB.radius - distance
      let separationX := overlap / 2 * normalX
      let separationY := overlap / 2 * normalY
      ({ bodyA with
          velocity := ⟨bodyA.velocity.x - impulseX / bodyA.mass,
                       bodyA.velocity.y - impulseY / bodyA.mass⟩,
          position := ⟨bodyA.position.x - separationX,
                       bodyA.position.y - separationY⟩ },
       { bodyB with
          velocity := ⟨bodyB.velocity.x + impulseX / bodyB.mass,
                       bodyB.velocity.y + impulseY / bodyB.mass⟩,
          position := ⟨bodyB.position.x + separationX,
                       bodyB.position.y + separationY⟩ })
    else (bodyA, bodyB)
  else (bodyA, bodyB)

/-- One iteration of the nested loop of lines 84-128: resolve the pair
at indices `ij` in place.  `sqrtFn` stands for `Math.sqrt`. -/
def resolveAt (elasticity : ℚ) (sqrtFn : ℚ → ℚ) (bodies : List Body)
    (ij : Nat × Nat) : List Body :=
  match bodies[ij.1]?, bodies[ij.2]? with
  | some bodyA, some bodyB =>
    let distance := sqrtFn ((bodyA.position.x - bodyB.position.x) ^ 2 +
      (bodyA.position.y - bodyB.position.y) ^ 2)
    let res := resolvePair elasticity bodyA bodyB distance
    (bodies.set ij.1 res.1).set ij.2 res.2
  | _, _ => bodies

/-- The index pairs `(i, j)` with `i < j < n`, in the visit order of the
nested loop of lines 84-85. -/
def pairIndices (n : Nat) : List (Nat × Nat) :=
  (List.range n).flatMap fun i =>
    ((List.range n).filter fun j => i < j).map fun j => (i, j)

/-- Lines 84-128: the whole collision detection and response pass. -/
def collisionPass (elasticity : ℚ) (sqrtFn : ℚ → ℚ) (bodies : List Body) :
    List Body :=
  (pairIndices bodies.length).foldl (resolveAt elasticity sqrtFn) bodies

/-- The small-bounce suppression of lines 139, 145, 151, 157: zero the
reflected component when its magnitude falls below `0.1`. -/
def stopSmall (v : ℚ) : ℚ := if |v| < 1/10 then 0 else v

/-- Lines 135-140: the floor check. -/
def boundaryFloor (elasticity height : ℚ) (body : Body) : Body :=
  if body.position.y + body.radius > height then
    { body with position := ⟨body.position.x, height - body.radius⟩,
                velocity := ⟨body.velocity.x, stopSmall (body.velocity.y * (-elasticity))⟩ }
  else body

/-- Lines 141-146: the ceiling check. -/
def boundaryCeiling (elasticity : ℚ) (body : Body) : Body :=
  if body.position.y - body.radius < 0 then
    { body with position := ⟨body.position.x, body.radius⟩,
                velocity := ⟨body.velocity.x, stopSmall (body.velocity.y * (-elasticity))⟩ }
  else body

/-- Lines 147-152: the right-wall check. -/
def boundaryRight (elasticity width : ℚ) (body : Body) : Body :=
  if body.position.x + body.radius > width then
    { body with position := ⟨width - body.radius, body.position.y⟩,
                velocity := ⟨stopSmall (body.velocity.x * (-elasticity)), body.velocity.y⟩ }
  else body

/-- Lines 153-158: the left-wall check. -/
def boundaryLeft (elasticity : ℚ) (body : Body) : Body :=
  if body.position.x - body.radius < 0 then
    { body with position := ⟨body.radius, body.position.y⟩,
                velocity := ⟨stopSmall (body.velocity.x * (-elasticity)), body.velocity.y⟩ }
  else body

/-- Lines 131-159: the boundary pass for one body — floor, ceiling,
right wall, left wall, checked sequentially in that order, each clamping
the position, reflecting the velocity component scaled by `elasticity`,
and zeroing it when its magnitude falls below `0.1`. -/
def boundaryBody (elasticity width height : ℚ) (body : Body) : Body :=
  boundaryLeft elasticity (boundaryRight elasticity width
    (boundaryCeiling elasticity (boundaryFloor elasticity height body)))

/-- `updatePhysics` (lines 48-161): one tick.  The gravity vector is
`{ x: 0, y: gravityMagnitude }` (line 38); `sqrtFn` stands for
`Math.sqrt`; `width`/`height` are the canvas dimensions. -/
def updatePhysics (gravityMagnitude : ℚ) (frictionEnabled : Bool)
    (elasticity width height : ℚ) (sqrtFn : ℚ → ℚ) (dt : ℚ)
    (bodies : List Body) : List Body :=
  let gravity : Vector2D := ⟨0, gravityMagnitude⟩
  let integrated := bodies.map (integrateBody gravity frictionEnabled width height dt)
  let resolved := collisionPass elasticity sqrtFn integrated
  resolved.map (boundaryBody elasticity width height)

/-!
JavaScript number semantics, used only to settle the zero-distance
claim: a rational magnitude extended with NaN and the two infinities
(the negative zero of IEEE 754 is not modelled; it is never produced on
the paths analysed here).
-/

/-- A JavaScript number: NaN, ±∞, or a finite value. -/
inductive JSNum where
  | nan : JSNum
  | posInf : JSNum
  | negInf : JSNum
  | num : ℚ → JSNum
deriving DecidableEq, Repr

namespace JSNum

/-- IEEE addition on `JSNum`. -/
def add : JSNum → JSNum → JSNum
  | nan, _ => nan
  | _, nan => nan
  | posInf, negInf => nan
  | negInf, posInf => nan
  | posInf, _ => posInf
  | _, posInf => posInf
  | negInf, _ => negInf
  | _, negInf => negInf
  | num a, num b => num (a + b)

/-- IEEE negation on `JSNum`. -/
def neg : JSNum → JSNum
  | nan => nan
  | posInf => negInf
  | negInf => posInf
  | num a => num (-a)

/-- IEEE subtraction on `JSNum`. -/
def sub (x y : JSNum) : JSNum := x.add y.neg

/-- IEEE multiplication on `JSNum`: `∞ * 0 = NaN`. -/
def mul : JSNum → JSNum → JSNum
  | nan, _ => nan
  | _, nan => nan
  | posInf, posInf => posInf
  | posInf, negInf => negInf
  | negInf, posInf => negInf
  | negInf, negInf => posInf
  | posInf, num b => if b = 0 then nan else if 0 < b then posInf else negInf
  | num a, posInf => if a = 0 then nan else if 0 < a then posInf else negInf
  | negInf, num b => if b = 0 then nan else if 0 < b then negInf else posInf
  | num a, negInf => if a = 0 then nan else if 0 < a then negInf else posInf
  | num a, num b => num (a * b)

/-- IEEE division on `JSNum`: `0 / 0 = NaN`, `x / 0 = ±∞` for `x ≠ 0`,
`∞ / ∞ = NaN`, finite `/ ∞ = 0`. -/
def div : JSNum → JSNum → JSNum
  | nan, _ => nan
  | _, nan => nan
  | posInf, posInf => nan
  | posInf, negInf => nan
  | negInf, posInf => nan
  | negInf, negInf => nan
  | posInf, num b => if 0 ≤ b then posInf else negInf
  | negInf, num b => if 0 ≤ b then negInf else posInf
  | num _, posInf => num 0
  | num _, negInf => num 0
  | num a, num b =>
    if b = 0 then (if a = 0 then nan else if 0 < a then posInf else negInf)
    else num (a / b)

/-- The JavaScript comparison `<`: any comparison with NaN is false. -/
def lt : JSNum → JSNum → Bool
  | nan, _ => false
  | _, nan => false
  | posInf, _ => false
  | _, posInf => true
  | negInf, negInf => false
  | negInf, _ => true
  | _, negInf => false
  | num a, num b => decide (a < b)

/-- Whether the value is NaN. -/
def isNaN : JSNum → Bool
  | nan => true
  | _ => false

end JSNum

/-- A 2D vector with JavaScript-number components. -/
structure Vector2DJS where
  x : JSNum
  y : JSNum
deriving DecidableEq, Repr

/-- A body whose numeric fields carry JavaScript-number semantics. -/
structure BodyJS where
  id : String
  position : Vector2DJS
  velocity : Vector2DJS
  acceleration : Vector2DJS
  mass : JSNum
  radius : JSNum
  color : String
deriving DecidableEq, Repr

/-- Inject a rational-valued body into the JavaScript-number model. -/
def Body.toJS (b : Body) : BodyJS :=
  { id := b.id,
    position := ⟨JSNum.num b.position.x, JSNum.num b.position.y⟩,
    velocity := ⟨JSNum.num b.velocity.x, JSNum.num b.velocity.y⟩,
    acceleration := ⟨JSNum.num b.acceleration.x, JSNum.num b.acceleration.y⟩,
    mass := JSNum.num b.mass,
    radius := JSNum.num b.radius,
    color := b.color }

/-- Whether any position or velocity component of the body is NaN. -/
def BodyJS.hasNaN (b : BodyJS) : Bool :=
  b.position.x.isNaN || b.position.y.isNaN || b.velocity.x.isNaN || b.velocity.y.isNaN

/-- Lines 94-126 again, but with every arithmetic operation and
comparison carrying JavaScript number semantics, so that the NaN
produced by the zero-distance normal can be traced.  `distance` is the
value `Math.sqrt` returned on lines 89-92. -/
def resolvePairJS (elasticity : JSNum) (bodyA bodyB : BodyJS) (distance : JSNum) :
    BodyJS × BodyJS :=
  if distance.lt (bodyA.radius.add bodyB.radius) then
    let normalX := (bodyB.position.x.sub bodyA.position.x).div distance
    let normalY := (bodyB.position.y.sub bodyA.position.y).div distance
    let relativeVelocityX := bodyB.velocity.x.sub bodyA.velocity.x
    let relativeVelocityY := bodyB.velocity.y.sub bodyA.velocity.y
    let dotProduct := (relativeVelocityX.mul normalX).add (relativeVelocityY.mul normalY)
    if dotProduct.lt (JSNum.num 0) then
      let impulse := (((JSNum.num 1).add elasticity).neg.mul dotProduct).div
        (((JSNum.num 1).div bodyA.mass).add ((JSNum.num 1).div bodyB.mass))
      let impulseX := impulse.mul normalX
      let impulseY := impulse.mul normalY
      let overlap := (bodyA.radius.add bodyB.radius).sub distance
      let separationX := (overlap.div (JSNum.num 2)).mul normalX
      let separationY := (overlap.div (JSNum.num 2)).mul normalY
      ({ bodyA with
          velocity := ⟨bodyA.velocity.x.sub (impulseX.div bodyA.mass),
                       bodyA.velocity.y.sub (impulseY.div bodyA.mass)⟩,
          position := ⟨bodyA.position.x.sub separationX,
                       bodyA.position.y.sub separationY⟩ },
       { bodyB with
          velocity := ⟨bodyB.velocity.x.add (impulseX.div bodyB.mass),
                       bodyB.velocity.y.add (impulseY.div bodyB.mass)⟩,
          position := ⟨bodyB.position.x.add separationX,
                       bodyB.position.y.add separationY⟩ })
    else (bodyA, bodyB)
  else (bodyA, bodyB)

/-!
Concrete sample data used by the witnesses and counterexamples.
-/

/-- Unit-mass, unit-radius body at the origin moving right. -/
def bodyHeadA : Body := ⟨"a", ⟨0, 0⟩, ⟨1, 0⟩, ⟨0, 0⟩, 1, 1, "red"⟩

/-- Unit-mass, unit-radius body at `(1, 0)` moving left. -/
def bodyHeadB : Body := ⟨"b", ⟨1, 0⟩, ⟨-1, 0⟩, ⟨0, 0⟩, 1, 1, "blue"⟩

/-- Overlapping body moving away to the left. -/
def bodySepA : Body := ⟨"a", ⟨0, 0⟩, ⟨-1, 0⟩, ⟨0, 0⟩, 1, 1, "red"⟩

/-- Overlapping body moving away to the right. -/
def bodySepB : Body := ⟨"b", ⟨1, 0⟩, ⟨1, 0⟩, ⟨0, 0⟩, 1, 1, "blue"⟩

/-- The demonstration body of lines 196-203. -/
def bodyRest : Body := ⟨"c", ⟨400, 50⟩, ⟨0, 0⟩, ⟨0, 0⟩, 10, 20, "blue"⟩

/-- A body whose lower edge sits exactly one unit above the floor. -/
def bodyNearFloor : Body := ⟨"d", ⟨400, 579⟩, ⟨1, 1⟩, ⟨0, 0⟩, 1, 20, "green"⟩

/-- A body whose diameter exceeds the world width. -/
def bodyWide : Body := ⟨"e", ⟨900, 300⟩, ⟨0, 0⟩, ⟨0, 0⟩, 1, 500, "red"⟩

/-- The state of `bodyRest` after one tick with gravity `49/5`,
friction on, elasticity `7/10`, world `800 × 600`, `dt = 1`. -/
def tickOut : Body := ⟨"c", ⟨400, 299/5⟩, ⟨0, 49/5⟩, ⟨0, 0⟩, 10, 20, "blue"⟩

/-- A body at `(5, 5)`, sharing its centre with `coincidentB`. -/
def coincidentA : Body := ⟨"p", ⟨5, 5⟩, ⟨1, 2⟩, ⟨0, 0⟩, 1, 1, "red"⟩

/-- A second body at `(5, 5)`, fully coincident with `coincidentA`. -/
def coincidentB : Body := ⟨"q", ⟨5, 5⟩, ⟨-3, 4⟩, ⟨0, 0⟩, 2, 1, "blue"⟩

/-- A stored body whose id is a typical 9-character generated id. -/
def storeBody : Body := ⟨"abcdefghi", ⟨0, 0⟩, ⟨0, 0⟩, ⟨0, 0⟩, 1, 1, "red"⟩

/-- A body specification for `addBody`. -/
def sampleSpec : BodySpec := ⟨⟨0, 0⟩, ⟨0, 0⟩, ⟨0, 0⟩, 1, 1, "green"⟩

/-!
Helper lemmas shared by several claims.
-/

/-- The structural fields of a body: everything except position and
velocity. -/
def structuralProj (b : Body) : String × ℚ × ℚ × String × Vector2D :=
  (b.id, b.mass, b.radius, b.color, b.acceleration)

/-- Kinetic energy `m·|v|²/2` of a body — the quantity measured by the
energy claim; the source does not compute it. -/
def kineticEnergy (b : Body) : ℚ :=
  b.mass * (b.velocity.x ^ 2 + b.velocity.y ^ 2) / 2

theorem structuralProj_integrateBody (gravity : Vector2D) (fe : Bool)
    (w h dt : ℚ) (b : Body) :
    structuralProj (integrateBody gravity fe w h dt b) = structuralProj b := rfl

theorem structuralProj_boundaryFloor (e h : ℚ) (b : Body) :
    structuralProj (boundaryFloor e h b) = structuralProj b := by
  unfold boundaryFloor; split_ifs <;> rfl

theorem structuralProj_boundaryCeiling (e : ℚ) (b : Body) :
    structuralProj (boundaryCeiling e b) = structuralProj b := by
  unfold boundaryCeiling; split_ifs <;> rfl

theorem structuralProj_boundaryRight (e w : ℚ) (b : Body) :
    structuralProj (boundaryRight e w b) = structuralProj b := by
  unfold boundaryRight; split_ifs <;> rfl

theorem structuralProj_boundaryLeft (e : ℚ) (b : Body) :
    structuralProj (boundaryLeft e b) = structuralProj b := by
  unfold boundaryLeft; split_ifs <;> rfl

theorem structuralProj_boundaryBody (e w h : ℚ) (b : Body) :
    structuralProj (boundaryBody e w h b) = structuralProj b := by
  unfold boundaryBody
  rw [structuralProj_boundaryLeft, structuralProj_boundaryRight,
    structuralProj_boundaryCeiling, structuralProj_boundaryFloor]

theorem resolvePair_fst_structuralProj (e : ℚ) (A B : Body) (d : ℚ) :
    structuralProj (resolvePair e A B d).1 = structuralProj A := by
  simp only [resolvePair, structuralProj]
  split_ifs <;> rfl

theorem resolvePair_snd_structuralProj (e : ℚ) (A B : Body) (d : ℚ) :
    structuralProj (resolvePair e A B d).2 = structuralProj B := by
  simp only [resolvePair, structuralProj]
  split_ifs <;> rfl

theorem set_self_of_getElem? {α : Type} (l : List α) (i : Nat) (a : α)
    (h : l[i]? = some a) : l.set i a = l := by
  induction l generalizing i with
  | nil => simp at h
  | cons x xs ih =>
    cases i with
    | zero => simp_all
    | succ n => simp_all

theorem resolveAt_map_structuralProj (e : ℚ) (s : ℚ → ℚ) (l : List Body)
    (ij : Nat × Nat) :
    (resolveAt e s l ij).map structuralProj = l.map structuralProj := by
  unfold resolveAt
  cases hA : l[ij.1]? with
  | none => cases l[ij.2]? <;> rfl
  | some A =>
    cases hB : l[ij.2]? with
    | none => rfl
    | some B =>
      dsimp only
      rw [List.map_set, List.map_set,
        resolvePair_fst_structuralProj, resolvePair_snd_structuralProj]
      have h1 : (l.map structuralProj)[ij.1]? = some (structuralProj A) := by
        rw [List.getElem?_map, hA]; rfl
      rw [set_self_of_getElem? _ _ _ h1]
      have h2 : (l.map structuralProj)[ij.2]? = some (structuralProj B) := by
        rw [List.getElem?_map, hB]; rfl
      rw [set_self_of_getElem? _ _ _ h2]

theorem foldl_resolveAt_map_structuralProj (e : ℚ) (s : ℚ → ℚ) :
    ∀ (ps : List (Nat × Nat)) (l : List Body),
      (ps.foldl (resolveAt e s) l).map structuralProj = l.map structuralProj := by
  intro ps
  induction ps with
  | nil => intro l; rfl
  | cons p ps ih =>
    intro l
    rw [List.foldl_cons, ih, resolveAt_map_structuralProj]

theorem collisionPass_map_structuralProj (e : ℚ) (s : ℚ → ℚ) (l : List Body) :
    (collisionPass e s l).map structuralProj = l.map structuralProj :=
  foldl_resolveAt_map_structuralProj e s (pairIndices l.length) l

theorem updatePhysics_map_structuralProj (gm : ℚ) (fe : Bool)
    (e w h : ℚ) (s : ℚ → ℚ) (dt : ℚ) (bodies : List Body) :
    (updatePhysics gm fe e w h s dt bodies).map structuralProj =
      bodies.map structuralProj := by
  unfold updatePhysics
  rw [List.map_map,
    show structuralProj ∘ boundaryBody e w h = structuralProj from
      funext fun b => structuralProj_boundaryBody e w h b,
    collisionPass_map_structuralProj, List.map_map]
  rfl

theorem boundaryFloor_radius (e h : ℚ) (b : Body) :
    (boundaryFloor e h b).radius = b.radius := by
  unfold boundaryFloor; split_ifs <;> rfl

theorem boundaryCeiling_radius (e : ℚ) (b : Body) :
    (boundaryCeiling e b).radius = b.radius := by
  unfold boundaryCeiling; split_ifs <;> rfl

theorem boundaryRight_radius (e w : ℚ) (b : Body) :
    (boundaryRight e w b).radius = b.radius := by
  unfold boundaryRight; split_ifs <;> rfl

theorem boundaryLeft_radius (e : ℚ) (b : Body) :
    (boundaryLeft e b).radius = b.radius := by
  unfold boundaryLeft; split_ifs <;> rfl

theorem boundaryBody_radius (e w h : ℚ) (b : Body) :
    (boundaryBody e w h b).radius = b.radius := by
  unfold boundaryBody
  rw [boundaryLeft_radius, boundaryRight_radius, boundaryCeiling_radius,
    boundaryFloor_radius]

theorem boundaryFloor_position_x (e h : ℚ) (b : Body) :
    (boundaryFloor e h b).position.x = b.position.x := by
  unfold boundaryFloor; split_ifs <;> rfl

theorem boundaryCeiling_position_x (e : ℚ) (b : Body) :
    (boundaryCeiling e b).position.x = b.position.x := by
  unfold boundaryCeiling; split_ifs <;> rfl

theorem boundaryRight_position_y (e w : ℚ) (b : Body) :
    (boundaryRight e w b).position.y = b.position.y := by
  unfold boundaryRight; split_ifs <;> rfl

theorem boundaryLeft_position_y (e : ℚ) (b : Body) :
    (boundaryLeft e b).position.y = b.position.y := by
  unfold boundaryLeft; split_ifs <;> rfl

/-- After the floor and ceiling checks the vertical position is inside
`[radius, height - radius]`, provided the diameter fits. -/
theorem y_contained_after_floor_ceiling (e h : ℚ) (b : Body)
    (hh : 2 * b.radius ≤ h) :
    b.radius ≤ (boundaryCeiling e (boundaryFloor e h b)).position.y ∧
    (boundaryCeiling e (boundaryFloor e h b)).position.y ≤ h - b.radius := by
  unfold boundaryFloor
  by_cases h1 : b.position.y + b.radius > h
  · rw [if_pos h1]
    unfold boundaryCeiling
    dsimp only
    split_ifs with h2 <;> refine ⟨?_, ?_⟩ <;> dsimp only <;> linarith
  · rw [if_neg h1]
    unfold boundaryCeiling
    split_ifs with h2 <;> refine ⟨?_, ?_⟩ <;> dsimp only <;> linarith

/-- After the right- and left-wall checks the horizontal position is
inside `[radius, width - radius]`, provided the diameter fits. -/
theorem x_contained_after_right_left (e w : ℚ) (b : Body)
    (hw : 2 * b.radius ≤ w) :
    b.radius ≤ (boundaryLeft e (boundaryRight e w b)).position.x ∧
    (boundaryLeft e (boundaryRight e w b)).position.x ≤ w - b.radius := by
  unfold boundaryRight
  by_cases h1 : b.position.x + b.radius > w
  · rw [if_pos h1]
    unfold boundaryLeft
    dsimp only
    split_ifs with h2 <;> refine ⟨?_, ?_⟩ <;> dsimp only <;> linarith
  · rw [if_neg h1]
    unfold boundaryLeft
    split_ifs with h2 <;> refine ⟨?_, ?_⟩ <;> dsimp only <;> linarith

/-- The full boundary pass leaves the body inside the world rectangle,
provided its diameter fits in both dimensions. -/
theorem boundaryBody_contained (e w h : ℚ) (b : Body)
    (hw : 2 * b.radius ≤ w) (hh : 2 * b.radius ≤ h) :
    b.radius ≤ (boundaryBody e w h b).position.x ∧
    (boundaryBody e w h b).position.x ≤ w - b.radius ∧
    b.radius ≤ (boundaryBody e w h b).position.y ∧
    (boundaryBody e w h b).position.y ≤ h - b.radius := by
  unfold boundaryBody
  have hyc := y_contained_after_floor_ceiling e h b hh
  set c2 := boundaryCeiling e (boundaryFloor e h b) with hc2
  have hrad2 : c2.radius = b.radius := by
    rw [hc2, boundaryCeiling_radius, boundaryFloor_radius]
  have hxc := x_contained_after_right_left e w c2 (by rw [hrad2]; exact hw)
  rw [hrad2] at hxc
  have hy : (boundaryLeft e (boundaryRight e w c2)).position.y = c2.position.y := by
    rw [boundaryLeft_position_y, boundaryRight_position_y]
  rw [hy]
  exact ⟨hxc.1, hxc.2, hyc.1, hyc.2⟩

/-!
Claim theorems.
-/

/-- C8: for an overlapping pair whose relative velocity along the
collision normal is non-negative (separating or sliding), the resolver
applies neither the impulse nor the positional correction — both bodies
come back unchanged. -/
theorem claimC8_separating_pair_skipped (e : ℚ) (A B : Body) (dist : ℚ)
    (hcol : dist < A.radius + B.radius)
    (hsep : 0 ≤ collisionDot A B dist) :
    resolvePair e A B dist = (A, B) := by
  simp only [resolvePair]
  rw [if_pos hcol, if_neg (not_lt.mpr hsep)]

/-- Witness for C8: the bodies `bodySepA`, `bodySepB` overlap at
distance 1 while moving apart, and the resolver leaves them unchanged. -/
theorem claimC8_witness :
    (1 : ℚ) < bodySepA.radius + bodySepB.radius ∧
    0 ≤ collisionDot bodySepA bodySepB 1 ∧
    resolvePair (7/10) bodySepA bodySepB 1 = (bodySepA, bodySepB) :=
  ⟨by norm_num [bodySepA, bodySepB], by norm_num [bodySepA, bodySepB, collisionDot],
    claimC8_separating_pair_skipped (7/10) bodySepA bodySepB 1
      (by norm_num [bodySepA, bodySepB])
      (by norm_num [bodySepA, bodySepB, collisionDot])⟩

/-- C9 counterexample: the store does nothing to make the generated id
fresh or non-empty.  If the random generator repeats an id already in
the store, the store holds a duplicate; if `Math.random()` returns `0`,
`(0).toString(36).substr(2, 9)` is the empty string. -/
theorem claimC9_counterexample :
    ((addBody [storeBody] sampleSpec "abcdefghi").map Body.id)
        = ["abcdefghi", "abcdefghi"] ∧
    ((addBody [] sampleSpec "").map Body.id) = [""] := by
  constructor <;> rfl

/-- C9 (amended): `clearBodies` empties the store, and `addBody`
appends exactly one body carrying the generated id; the id is distinct
from all stored ids and non-empty only under the assumption that the
random generator produced such an id. -/
theorem claimC9_store_lifecycle (bodies : List Body) (spec : BodySpec)
    (freshId : String)
    (hfresh : freshId ∉ bodies.map Body.id) (hne : freshId ≠ "") :
    (clearBodies bodies).length = 0 ∧
    (addBody bodies spec freshId).length = bodies.length + 1 ∧
    (addBody bodies spec freshId).dropLast = bodies ∧
    (addBody bodies spec freshId).getLast? = some (spec.withId freshId) ∧
    (spec.withId freshId).id ∉ bodies.map Body.id ∧
    (spec.withId freshId).id ≠ "" := by
  refine ⟨rfl, by simp [addBody], by simp [addBody], by simp [addBody], ?_, ?_⟩
  · simpa [BodySpec.withId] using hfresh
  · simpa [BodySpec.withId] using hne

/-- Witness for C9: adding a body with the fresh id `"x"` to a
one-element store. -/
theorem claimC9_witness :
    ("x" ∉ [storeBody].map Body.id) ∧ ("x" ≠ "") ∧
    ((clearBodies [storeBody]).length = 0 ∧
     (addBody [storeBody] sampleSpec "x").length = [storeBody].length + 1 ∧
     (addBody [storeBody] sampleSpec "x").dropLast = [storeBody] ∧
     (addBody [storeBody] sampleSpec "x").getLast? = some (sampleSpec.withId "x") ∧
     (sampleSpec.withId "x").id ∉ [storeBody].map Body.id ∧
     (sampleSpec.withId "x").id ≠ "") :=
  ⟨by decide, by decide,
    claimC9_store_lifecycle [storeBody] sampleSpec "x" (by decide) (by decide)⟩

/-- C6: with friction disabled and positive mass, the integrator's
acceleration is exactly the gravity vector (mass cancels), the velocity
is updated first, and the position then uses the already-updated
velocity — semi-implicit Euler. -/
theorem claimC6_symplectic_euler (gravity : Vector2D) (w h dt : ℚ)
    (b : Body) (hm : 0 < b.mass) :
    (integrateBody gravity false w h dt b).velocity =
      ⟨b.velocity.x + gravity.x * dt, b.velocity.y + gravity.y * dt⟩ ∧
    (integrateBody gravity false w h dt b).position =
      ⟨b.position.x + (b.velocity.x + gravity.x * dt) * dt,
       b.position.y + (b.velocity.y + gravity.y * dt) * dt⟩ := by
  have hm' : b.mass ≠ 0 := hm.ne'
  simp [integrateBody, mul_div_cancel_left₀ _ hm']

/-- Witness for C6: the demonstration body under gravity `(0, 49/5)`
with `dt = 1`. -/
theorem claimC6_witness :
    (0 : ℚ) < bodyRest.mass ∧
    ((integrateBody ⟨0, 49/5⟩ false 800 600 1 bodyRest).velocity =
      ⟨bodyRest.velocity.x + 0 * 1, bodyRest.velocity.y + 49/5 * 1⟩ ∧
     (integrateBody ⟨0, 49/5⟩ false 800 600 1 bodyRest).position =
      ⟨bodyRest.position.x + (bodyRest.velocity.x + 0 * 1) * 1,
       bodyRest.position.y + (bodyRest.velocity.y + 49/5 * 1) * 1⟩) :=
  ⟨by decide, claimC6_symplectic_euler ⟨0, 49/5⟩ 800 600 1 bodyRest (by decide)⟩

/-- C1 counterexample: for a body whose diameter exceeds the world
width (radius 500, width 800), the Boundary Handler leaves the body at
`position.x = 500`, violating `position.x ≤ width - radius = 300`.  The
claim as stated, quantified over every body, is therefore false. -/
theorem claimC1_counterexample :
    (boundaryBody (7/10) 800 600 bodyWide).position.x = 500 ∧
    ¬ ((boundaryBody (7/10) 800 600 bodyWide).position.x ≤
        800 - (boundaryBody (7/10) 800 600 bodyWide).radius) := by
  constructor <;>
    norm_num [boundaryBody, boundaryFloor, boundaryCeiling, boundaryRight,
      boundaryLeft, stopSmall, bodyWide]

/-- C1 (amended): for every tick and every body whose diameter fits the
world rectangle (`2·radius ≤ width` and `2·radius ≤ height`),
immediately after the Boundary Handler runs the body's position
satisfies `radius ≤ position.x ≤ width - radius` and
`radius ≤ position.y ≤ height - radius`.  The fit condition is on the
body in question only; the other bodies in the store are arbitrary. -/
theorem claimC1_boundary_containment (gm : ℚ) (fe : Bool) (e w h : ℚ)
    (sqrtFn : ℚ → ℚ) (dt : ℚ) (bodies : List Body) (b : Body)
    (hb : b ∈ updatePhysics gm fe e w h sqrtFn dt bodies)
    (hw : 2 * b.radius ≤ w) (hh : 2 * b.radius ≤ h) :
    b.radius ≤ b.position.x ∧ b.position.x ≤ w - b.radius ∧
    b.radius ≤ b.position.y ∧ b.position.y ≤ h - b.radius := by
  simp only [updatePhysics] at hb
  obtain ⟨c, hc, rfl⟩ := List.mem_map.mp hb
  rw [boundaryBody_radius] at hw hh ⊢
  exact boundaryBody_contained e w h c hw hh

/-- Witness for C1: one tick on the demonstration body with gravity
`49/5`, friction on, elasticity `7/10`, world `800 × 600`, `dt = 1`. -/
theorem claimC1_witness :
    tickOut ∈ updatePhysics (49/5) true (7/10) 800 600 (fun q => q) 1 [bodyRest] ∧
    2 * tickOut.radius ≤ (800 : ℚ) ∧ 2 * tickOut.radius ≤ (600 : ℚ) ∧
    (tickOut.radius ≤ tickOut.position.x ∧
     tickOut.position.x ≤ 800 - tickOut.radius ∧
     tickOut.radius ≤ tickOut.position.y ∧
     tickOut.position.y ≤ 600 - tickOut.radius) := by
  have hpairs : pairIndices 1 = [] := by decide
  have htick : updatePhysics (49/5) true (7/10) 800 600 (fun q => q) 1 [bodyRest]
      = [tickOut] := by
    simp only [updatePhysics, collisionPass, List.map_cons, List.map_nil,
      List.length_cons, List.length_nil, Nat.zero_add, hpairs, List.foldl_nil]
    norm_num [integrateBody, boundaryBody, boundaryFloor, boundaryCeiling,
      boundaryRight, boundaryLeft, stopSmall, frictionCoefficient, bodyRest, tickOut]
  have hmem : tickOut ∈ updatePhysics (49/5) true (7/10) 800 600 (fun q => q) 1 [bodyRest] := by
    rw [htick]
    exact List.mem_singleton.mpr rfl
  exact ⟨hmem, by norm_num [tickOut], by norm_num [tickOut],
    claimC1_boundary_containment (49/5) true (7/10) 800 600 (fun q => q) 1
      [bodyRest] tickOut hmem (by norm_num [tickOut]) (by norm_num [tickOut])⟩

/-- C7 counterexample: with friction enabled, a body whose lower edge
sits one unit above the floor (`position.y + radius = 599 < 600`) still
has `velocity.x` scaled by `0.9`, because the code tests
`position.y + radius >= height - 1`, not `>= height`.  This refutes
"scaled exactly when the lower edge touches or exceeds the floor". -/
theorem claimC7_counterexample :
    (integrateBody ⟨0, 0⟩ true 800 600 1 bodyNearFloor).velocity.x
      = frictionCoefficient * bodyNearFloor.velocity.x ∧
    bodyNearFloor.position.y + bodyNearFloor.radius < 600 := by
  constructor <;>
    norm_num [integrateBody, bodyNearFloor, frictionCoefficient]

/-- C7 (amended): with friction enabled and positive mass, per tick
`velocity.x` is scaled by the fixed coefficient `0.9` exactly when
`position.y + radius ≥ height - 1` (within one unit of the floor), and
`velocity.y` is scaled by `0.9` exactly when
`position.x + radius ≥ width - 1` or `position.x - radius ≤ 1` (within
one unit of a side wall) — the cross-axis coupling of the source:
floor contact damps the horizontal component, wall contact the
vertical one. -/
theorem claimC7_friction_thresholds (gravity : Vector2D) (w h dt : ℚ)
    (b : Body) (hm : 0 < b.mass)
    (hx : b.velocity.x + gravity.x * dt ≠ 0)
    (hy : b.velocity.y + gravity.y * dt ≠ 0) :
    ((integrateBody gravity true w h dt b).velocity.x
        = frictionCoefficient * (b.velocity.x + gravity.x * dt)
      ↔ b.position.y + b.radius ≥ h - 1) ∧
    ((integrateBody gravity true w h dt b).velocity.y
        = frictionCoefficient * (b.velocity.y + gravity.y * dt)
      ↔ b.position.x + b.radius ≥ w - 1 ∨ b.position.x - b.radius ≤ 1) := by
  have hm' : b.mass ≠ 0 := hm.ne'
  have hax : b.mass * gravity.x / b.mass = gravity.x := mul_div_cancel_left₀ _ hm'
  have hay : b.mass * gravity.y / b.mass = gravity.y := mul_div_cancel_left₀ _ hm'
  simp only [integrateBody, hax, hay, true_and, frictionCoefficient]
  constructor
  · by_cases hc : b.position.y + b.radius ≥ h - 1
    · rw [if_pos hc]
      exact iff_of_true (mul_comm _ _) hc
    · rw [if_neg hc]
      refine iff_of_false (fun heq => ?_) hc
      have : b.velocity.x + gravity.x * dt = 0 := by linarith
      exact hx this
  · by_cases hc : b.position.x + b.radius ≥ w - 1 ∨ b.position.x - b.radius ≤ 1
    · rw [if_pos hc]
      exact iff_of_true (mul_comm _ _) hc
    · rw [if_neg hc]
      refine iff_of_false (fun heq => ?_) hc
      have : b.velocity.y + gravity.y * dt = 0 := by linarith
      exact hy this

/-- Witness for C7: `bodyNearFloor` with zero gravity and `dt = 1`. -/
theorem claimC7_witness :
    (0 : ℚ) < bodyNearFloor.mass ∧
    bodyNearFloor.velocity.x + (0 : ℚ) * 1 ≠ 0 ∧
    bodyNearFloor.velocity.y + (0 : ℚ) * 1 ≠ 0 ∧
    (((integrateBody ⟨0, 0⟩ true 800 600 1 bodyNearFloor).velocity.x
        = frictionCoefficient * (bodyNearFloor.velocity.x + 0 * 1)
      ↔ bodyNearFloor.position.y + bodyNearFloor.radius ≥ 600 - 1) ∧
     ((integrateBody ⟨0, 0⟩ true 800 600 1 bodyNearFloor).velocity.y
        = frictionCoefficient * (bodyNearFloor.velocity.y + 0 * 1)
      ↔ bodyNearFloor.position.x + bodyNearFloor.radius ≥ 800 - 1 ∨
          bodyNearFloor.position.x - bodyNearFloor.radius ≤ 1)) :=
  ⟨by norm_num [bodyNearFloor], by norm_num [bodyNearFloor], by norm_num [bodyNearFloor],
    claimC7_friction_thresholds ⟨0, 0⟩ 800 600 1 bodyNearFloor
      (by norm_num [bodyNearFloor]) (by norm_num [bodyNearFloor])
      (by norm_num [bodyNearFloor])⟩

/-- C10: one tick preserves the number and order of bodies and leaves
every body's id, mass, radius, color and stored acceleration field
unchanged — the integrator computes a fresh local acceleration and
never writes the `acceleration` field.  The second conjunct states the
per-index preservation: projecting every body of the output list to its
structural fields gives exactly the projected input list. -/
theorem claimC10_tick_frame_effects (gm : ℚ) (fe : Bool) (e w h : ℚ)
    (sqrtFn : ℚ → ℚ) (dt : ℚ) (bodies : List Body) :
    (updatePhysics gm fe e w h sqrtFn dt bodies).length = bodies.length ∧
    (updatePhysics gm fe e w h sqrtFn dt bodies).map structuralProj =
      bodies.map structuralProj := by
  have hmap := updatePhysics_map_structuralProj gm fe e w h sqrtFn dt bodies
  refine ⟨?_, hmap⟩
  have hlen := congrArg List.length hmap
  simpa using hlen

/-- C2: when two distinct bodies have coincident centres the computed
distance is `Math.sqrt(0) = 0`, the normal components are `0 / 0 = NaN`,
and the dot product along the normal is NaN; since `NaN < 0` is false in
JavaScript, the resolution branch is skipped and both bodies' positions
and velocities come out unchanged — a defined, NaN-free outcome.  No NaN
reaches the simulation state. -/
theorem claimC2_zero_distance_guarded (e : JSNum) (A B : Body)
    (hpos : A.position = B.position) :
    resolvePairJS e A.toJS B.toJS (JSNum.num 0) = (A.toJS, B.toJS) ∧
    (A.toJS).hasNaN = false ∧ (B.toJS).hasNaN = false := by
  have hx : B.position.x - A.position.x = 0 := by rw [hpos, sub_self]
  have hy : B.position.y - A.position.y = 0 := by rw [hpos, sub_self]
  refine ⟨?_, rfl, rfl⟩
  simp only [resolvePairJS, Body.toJS, JSNum.sub, JSNum.add, JSNum.neg,
    ← sub_eq_add_neg, hx, hy, JSNum.div, JSNum.mul, JSNum.lt]
  split <;> simp

/-- Witness for C2: the coincident pair `coincidentA`, `coincidentB`
with elasticity `7/10`. -/
theorem claimC2_witness :
    coincidentA.position = coincidentB.position ∧
    (resolvePairJS (JSNum.num (7/10)) coincidentA.toJS coincidentB.toJS (JSNum.num 0)
        = (coincidentA.toJS, coincidentB.toJS) ∧
     (coincidentA.toJS).hasNaN = false ∧ (coincidentB.toJS).hasNaN = false) :=
  ⟨by decide,
    claimC2_zero_distance_guarded (JSNum.num (7/10)) coincidentA coincidentB (by decide)⟩

/-- An equal and opposite impulse term cancels from the total momentum
of a two-body system. -/
theorem momentum_cancel (mA mB vA vB t : ℚ) (hA : mA ≠ 0) (hB : mB ≠ 0) :
    mA * (vA - t / mA) + mB * (vB + t / mB) = mA * vA + mB * vB := by
  field_simp
  ring

/-- C3: for a colliding, approaching pair with positive masses, the
impulse application preserves total momentum exactly, in both
components. -/
theorem claimC3_momentum_conserved (e : ℚ) (A B : Body) (dist : ℚ)
    (hmA : 0 < A.mass) (hmB : 0 < B.mass)
    (hcol : dist < A.radius + B.radius)
    (happ : collisionDot A B dist < 0) :
    A.mass * (resolvePair e A B dist).1.velocity.x +
      B.mass * (resolvePair e A B dist).2.velocity.x
      = A.mass * A.velocity.x + B.mass * B.velocity.x ∧
    A.mass * (resolvePair e A B dist).1.velocity.y +
      B.mass * (resolvePair e A B dist).2.velocity.y
      = A.mass * A.velocity.y + B.mass * B.velocity.y := by
  have hmA' : A.mass ≠ 0 := hmA.ne'
  have hmB' : B.mass ≠ 0 := hmB.ne'
  simp only [resolvePair]
  rw [if_pos hcol, if_pos happ]
  dsimp only
  exact ⟨momentum_cancel _ _ _ _ _ hmA' hmB', momentum_cancel _ _ _ _ _ hmA' hmB'⟩

/-- Witness for C3: the unit-mass head-on pair at distance 1. -/
theorem claimC3_witness :
    (0 : ℚ) < bodyHeadA.mass ∧ (0 : ℚ) < bodyHeadB.mass ∧
    (1 : ℚ) < bodyHeadA.radius + bodyHeadB.radius ∧
    collisionDot bodyHeadA bodyHeadB 1 < 0 ∧
    (bodyHeadA.mass * (resolvePair 1 bodyHeadA bodyHeadB 1).1.velocity.x +
       bodyHeadB.mass * (resolvePair 1 bodyHeadA bodyHeadB 1).2.velocity.x
       = bodyHeadA.mass * bodyHeadA.velocity.x +
         bodyHeadB.mass * bodyHeadB.velocity.x ∧
     bodyHeadA.mass * (resolvePair 1 bodyHeadA bodyHeadB 1).1.velocity.y +
       bodyHeadB.mass * (resolvePair 1 bodyHeadA bodyHeadB 1).2.velocity.y
       = bodyHeadA.mass * bodyHeadA.velocity.y +
         bodyHeadB.mass * bodyHeadB.velocity.y) :=
  ⟨by decide, by decide, by norm_num [bodyHeadA, bodyHeadB],
    by norm_num [bodyHeadA, bodyHeadB, collisionDot],
    claimC3_momentum_conserved 1 bodyHeadA bodyHeadB 1 (by decide) (by decide)
      (by norm_num [bodyHeadA, bodyHeadB])
      (by norm_num [bodyHeadA, bodyHeadB, collisionDot])⟩

/-- C4: two equal-mass bodies approaching head-on (velocities colinear
with the centre line, speeds `a` and `b` with `b < a` along the normal)
with elasticity 1 exactly swap their velocities. -/
theorem claimC4_velocity_exchange (A B : Body) (dist a b : ℚ)
    (hd2 : dist ^ 2 = (B.position.x - A.position.x) ^ 2 +
      (B.position.y - A.position.y) ^ 2)
    (hdpos : 0 < dist)
    (hcol : dist < A.radius + B.radius)
    (hm : A.mass = B.mass) (hmpos : 0 < A.mass)
    (hvA : A.velocity = ⟨a * ((B.position.x - A.position.x) / dist),
                         a * ((B.position.y - A.position.y) / dist)⟩)
    (hvB : B.velocity = ⟨b * ((B.position.x - A.position.x) / dist),
                         b * ((B.position.y - A.position.y) / dist)⟩)
    (hab : b < a) :
    (resolvePair 1 A B dist).1.velocity = B.velocity ∧
    (resolvePair 1 A B dist).2.velocity = A.velocity := by
  have hd : dist ≠ 0 := hdpos.ne'
  have hmA' : A.mass ≠ 0 := hmpos.ne'
  have hmB' : B.mass ≠ 0 := hm ▸ hmA'
  have hn : ((B.position.x - A.position.x) / dist) ^ 2 +
      ((B.position.y - A.position.y) / dist) ^ 2 = 1 := by
    rw [div_pow, div_pow, ← add_div, ← hd2, div_self (pow_ne_zero 2 hd)]
  have hdot : collisionDot A B dist = b - a := by
    simp only [collisionDot, hvA, hvB]
    linear_combination (b - a) * hn
  have happ : collisionDot A B dist < 0 := by
    rw [hdot]; linarith
  simp only [resolvePair]
  rw [if_pos hcol, if_pos happ]
  dsimp only
  rw [hdot, hvA, hvB, hm]
  constructor <;> simp only [Vector2D.mk.injEq] <;> constructor <;>
    field_simp <;> ring

/-- Witness for C4: the unit-mass head-on pair at distance 1 with
speeds `1` and `-1` along the normal. -/
theorem claimC4_witness :
    (1 : ℚ) ^ 2 = (bodyHeadB.position.x - bodyHeadA.position.x) ^ 2 +
      (bodyHeadB.position.y - bodyHeadA.position.y) ^ 2 ∧
    (0 : ℚ) < 1 ∧
    (1 : ℚ) < bodyHeadA.radius + bodyHeadB.radius ∧
    bodyHeadA.mass = bodyHeadB.mass ∧ (0 : ℚ) < bodyHeadA.mass ∧
    bodyHeadA.velocity =
      ⟨1 * ((bodyHeadB.position.x - bodyHeadA.position.x) / 1),
       1 * ((bodyHeadB.position.y - bodyHeadA.position.y) / 1)⟩ ∧
    bodyHeadB.velocity =
      ⟨-1 * ((bodyHeadB.position.x - bodyHeadA.position.x) / 1),
       -1 * ((bodyHeadB.position.y - bodyHeadA.position.y) / 1)⟩ ∧
    (-1 : ℚ) < 1 ∧
    ((resolvePair 1 bodyHeadA bodyHeadB 1).1.velocity = bodyHeadB.velocity ∧
     (resolvePair 1 bodyHeadA bodyHeadB 1).2.velocity = bodyHeadA.velocity) :=
  ⟨by norm_num [bodyHeadA, bodyHeadB], by norm_num,
    by norm_num [bodyHeadA, bodyHeadB], by decide, by decide,
    by norm_num [bodyHeadA, bodyHeadB], by norm_num [bodyHeadA, bodyHeadB],
    by norm_num,
    claimC4_velocity_exchange bodyHeadA bodyHeadB 1 1 (-1)
      (by norm_num [bodyHeadA, bodyHeadB]) (by norm_num)
      (by norm_num [bodyHeadA, bodyHeadB]) (by decide) (by decide)
      (by norm_num [bodyHeadA, bodyHeadB]) (by norm_num [bodyHeadA, bodyHeadB])
      (by norm_num)⟩

/-- The algebra of the impulse: applying the impulse
`j = -(1+e)·D / (1/mA + 1/mB)` along a unit normal `(nx, ny)`, where
`D` is the relative velocity along the normal, changes the total
kinetic energy by `D²(1+e)(e-1)·mA·mB / (2(mA+mB))`. -/
theorem impulse_energy_delta (mA mB e D nx ny vAx vAy vBx vBy : ℚ)
    (hmA : mA ≠ 0) (hmB : mB ≠ 0) (hsum : mA + mB ≠ 0)
    (hn : nx ^ 2 + ny ^ 2 = 1)
    (hD : (vBx - vAx) * nx + (vBy - vAy) * ny = D) :
    mA * ((vAx - -(1 + e) * D / (1/mA + 1/mB) * nx / mA) ^ 2 +
        (vAy - -(1 + e) * D / (1/mA + 1/mB) * ny / mA) ^ 2) / 2 +
      mB * ((vBx + -(1 + e) * D / (1/mA + 1/mB) * nx / mB) ^ 2 +
        (vBy + -(1 + e) * D / (1/mA + 1/mB) * ny / mB) ^ 2) / 2 -
      (mA * (vAx ^ 2 + vAy ^ 2) / 2 + mB * (vBx ^ 2 + vBy ^ 2) / 2)
      = D ^ 2 * (1 + e) * (e - 1) * (mA * mB) / (2 * (mA + mB)) := by
  have hs : 1 / mA + 1 / mB = (mA + mB) / (mA * mB) := one_div_add_one_div hmA hmB
  simp only [hs, div_div_eq_mul_div]
  trans (-(1 + e) * D * (mA * mB) / (mA + mB) *
        ((vBx - vAx) * nx + (vBy - vAy) * ny) +
      (-(1 + e) * D * (mA * mB) / (mA + mB)) ^ 2 * ((mA + mB) / (mA * mB)) *
        (nx ^ 2 + ny ^ 2) / 2)
  · field_simp
    ring
  · rw [hD, hn]
    field_simp
    ring

/-- C5: for elasticity in `[0, 1]` and a colliding, approaching pair
with positive masses, the pair's total kinetic energy does not increase
under the impulse application, with equality exactly when
`elasticity = 1`. -/
theorem claimC5_energy_nonincrease (e : ℚ) (A B : Body) (dist : ℚ)
    (he0 : 0 ≤ e) (he1 : e ≤ 1)
    (hmA : 0 < A.mass) (hmB : 0 < B.mass)
    (hd2 : dist ^ 2 = (B.position.x - A.position.x) ^ 2 +
      (B.position.y - A.position.y) ^ 2)
    (hdpos : 0 < dist)
    (hcol : dist < A.radius + B.radius)
    (happ : collisionDot A B dist < 0) :
    kineticEnergy (resolvePair e A B dist).1 +
      kineticEnergy (resolvePair e A B dist).2
      ≤ kineticEnergy A + kineticEnergy B ∧
    (kineticEnergy (resolvePair e A B dist).1 +
       kineticEnergy (resolvePair e A B dist).2
       = kineticEnergy A + kineticEnergy B ↔ e = 1) := by
  have hd : dist ≠ 0 := hdpos.ne'
  have hmA' : A.mass ≠ 0 := hmA.ne'
  have hmB' : B.mass ≠ 0 := hmB.ne'
  have hn : ((B.position.x - A.position.x) / dist) ^ 2 +
      ((B.position.y - A.position.y) / dist) ^ 2 = 1 := by
    rw [div_pow, div_pow, ← add_div, ← hd2, div_self (pow_ne_zero 2 hd)]
  have hdrel : (B.velocity.x - A.velocity.x) * ((B.position.x - A.position.x) / dist) +
      (B.velocity.y - A.velocity.y) * ((B.position.y - A.position.y) / dist)
      = collisionDot A B dist := rfl
  have key : kineticEnergy (resolvePair e A B dist).1 +
      kineticEnergy (resolvePair e A B dist).2
      - (kineticEnergy A + kineticEnergy B)
      = (collisionDot A B dist) ^ 2 * (1 + e) * (e - 1) *
          (A.mass * B.mass) / (2 * (A.mass + B.mass)) := by
    have hsum : A.mass + B.mass ≠ 0 := by positivity
    simp only [resolvePair]
    rw [if_pos hcol, if_pos happ]
    simp only [kineticEnergy]
    linear_combination impulse_energy_delta A.mass B.mass e
      (collisionDot A B dist)
      ((B.position.x - A.position.x) / dist) ((B.position.y - A.position.y) / dist)
      A.velocity.x A.velocity.y B.velocity.x B.velocity.y
      hmA' hmB' hsum hn hdrel
  have h1e : 0 < 1 + e := by linarith
  have hmm : 0 < A.mass * B.mass := mul_pos hmA hmB
  have hden : 0 < 2 * (A.mass + B.mass) := by linarith
  constructor
  · have hnum : (collisionDot A B dist) ^ 2 * (1 + e) * (e - 1) *
        (A.mass * B.mass) ≤ 0 := by
      have t1 : 0 ≤ (collisionDot A B dist) ^ 2 * (1 + e) :=
        mul_nonneg (sq_nonneg _) h1e.le
      have t2 : (collisionDot A B dist) ^ 2 * (1 + e) * (e - 1) ≤ 0 :=
        mul_nonpos_of_nonneg_of_nonpos t1 (by linarith)
      exact mul_nonpos_of_nonpos_of_nonneg t2 hmm.le
    have hquot := div_nonpos_of_nonpos_of_nonneg hnum hden.le
    linarith [key, hquot]
  · constructor
    · intro heq
      by_contra hne
      have hlt : e < 1 := lt_of_le_of_ne he1 hne
      have hD2 : 0 < (collisionDot A B dist) ^ 2 := by
        nlinarith [mul_pos_of_neg_of_neg happ happ]
      have t1 : 0 < (collisionDot A B dist) ^ 2 * (1 + e) := mul_pos hD2 h1e
      have t2 : (collisionDot A B dist) ^ 2 * (1 + e) * (e - 1) < 0 :=
        mul_neg_of_pos_of_neg t1 (by linarith)
      have hnumneg : (collisionDot A B dist) ^ 2 * (1 + e) * (e - 1) *
          (A.mass * B.mass) < 0 := mul_neg_of_neg_of_pos t2 hmm
      have hquot := div_neg_of_neg_of_pos hnumneg hden
      linarith [key, hquot]
    · intro he
      subst he
      have hzero : (collisionDot A B dist) ^ 2 * (1 + 1) * (1 - 1) *
          (A.mass * B.mass) / (2 * (A.mass + B.mass)) = 0 := by
        norm_num
      linarith [key, hzero]

/-- Witness for C5: the unit-mass head-on pair at distance 1 with
elasticity `1/2`. -/
theorem claimC5_witness :
    (0 : ℚ) ≤ 1/2 ∧ (1/2 : ℚ) ≤ 1 ∧
    (0 : ℚ) < bodyHeadA.mass ∧ (0 : ℚ) < bodyHeadB.mass ∧
    (1 : ℚ) ^ 2 = (bodyHeadB.position.x - bodyHeadA.position.x) ^ 2 +
      (bodyHeadB.position.y - bodyHeadA.position.y) ^ 2 ∧
    (0 : ℚ) < 1 ∧
    (1 : ℚ) < bodyHeadA.radius + bodyHeadB.radius ∧
    collisionDot bodyHeadA bodyHeadB 1 < 0 ∧
    (kineticEnergy (resolvePair (1/2) bodyHeadA bodyHeadB 1).1 +
       kineticEnergy (resolvePair (1/2) bodyHeadA bodyHeadB 1).2
       ≤ kineticEnergy bodyHeadA + kineticEnergy bodyHeadB ∧
     (kineticEnergy (resolvePair (1/2) bodyHeadA bodyHeadB 1).1 +
        kineticEnergy (resolvePair (1/2) bodyHeadA bodyHeadB 1).2
        = kineticEnergy bodyHeadA + kineticEnergy bodyHeadB ↔ (1/2 : ℚ) = 1)) :=
  ⟨by norm_num, by norm_num, by decide, by decide,
    by norm_num [bodyHeadA, bodyHeadB], by norm_num,
    by norm_num [bodyHeadA, bodyHeadB],
    by norm_num [bodyHeadA, bodyHeadB, collisionDot],
    claimC5_energy_nonincrease (1/2) bodyHeadA bodyHeadB 1
      (by norm_num) (by norm_num) (by decide) (by decide)
      (by norm_num [bodyHeadA, bodyHeadB]) (by norm_num)
      (by norm_num [bodyHeadA, bodyHeadB])
      (by norm_num [bodyHeadA, bodyHeadB, collisionDot])⟩

end PhysicsEngine
